import Mathlib

/-!
Verification of the Tiny_RGB_Blinker firmware (`src/Tiny_RGB_Blinker.cpp`)
against its natural-language specification.

The C sources are shallowly embedded: 8-bit registers are `Nat` values
reduced mod 256 at each store, the 16-bit ramp accumulators are `Nat`
reduced mod 65536, and the hardware registers touched by `night()` and
`wdSleep()` are collected in an explicit record that the embedded
functions transform.  Environment-determined reads (the `PINB` sample in
`night()`, the outcome of each `night()` poll inside `animateLoop`) are
passed as explicit parameters.
-/

namespace TinyRGB

set_option maxRecDepth 200000

/-- PRNG state: the four 8-bit registers `x a b c` of the XABC generator
(globals at lines 79-82 of `src/Tiny_RGB_Blinker.cpp`). -/
structure RState where
  x : Nat
  a : Nat
  b : Nat
  c : Nat
deriving DecidableEq

/-- `random()` (lines 85-91): `x++; a = a^c^x; b = b+a; c = c+((b>>1)^a);
return c;` with all arithmetic on `uint8_t`, i.e. mod 256. -/
def random (s : RState) : Nat × RState :=
  let x := (s.x + 1) % 256
  let a := ((s.a ^^^ s.c) ^^^ x) % 256
  let b := (s.b + a) % 256
  let c := (s.c + ((b >>> 1) ^^^ a)) % 256
  (c, ⟨x, a, b, c⟩)

/-- Modelled from the spec (section 4.1), for comparison with `random`:
"increment `x`; set `a = a XOR c XOR x`; set `b = b + a` (mod 256); set
`c = c + ((b >> 1) XOR a)` (mod 256); return `c`". -/
def randomSpec (s : RState) : Nat × RState :=
  let x := (s.x + 1) % 256
  let a := ((s.a ^^^ s.c) ^^^ x) % 256
  let b := (s.b + a) % 256
  let c := (s.c + ((b >>> 1) ^^^ a)) % 256
  (c, ⟨x, a, b, c⟩)

/-- The fixed CAFEBABE seed (lines 79-82). -/
def seed : RState := ⟨0xCA, 0xFE, 0xBA, 0xBE⟩

/-- PRNG state after one `random()` call. -/
def stepRng (s : RState) : RState := (random s).2

/-- C3: the PRNG step computes exactly the specified four-register update
(witnessed by `random` agreeing pointwise with the spec-worded
`randomSpec`), and from the fixed seed the first two outputs are 103 and
121.  Determinism across runs is inherent: `random` is a pure function of
the state and takes no other input. -/
theorem random_step_and_vectors :
    (∀ s : RState, random s = randomSpec s)
    ∧ (random seed).1 = 103
    ∧ (random (random seed).2).1 = 121 :=
  ⟨fun _ => rfl, by decide, by decide⟩

/-- Result of the selection part of `animateOne` (lines 104-132): the PRNG
state after all draws of the cycle, whether the idle branch (`case 0`,
lines 109-111) returned early, and the values of the locals `p1 p2 p3`
(initialized to 0 at lines 105-107) when the `switch` is left. -/
structure Sel where
  rng : RState
  idle : Bool
  p1 : Nat
  p2 : Nat
  p3 : Nat
deriving DecidableEq

/-- The selection `switch` of `animateOne` (lines 104-132).  `random() & 3`
picks the outcome; outcome 0 is idle; outcomes 1-3 pin the corresponding
channel to `0xff` and give one of the two remaining channels a fresh random
byte, chosen by one further random bit. -/
def animateSelect (s : RState) : Sel :=
  let r := (random s).1
  let s1 := (random s).2
  if r &&& 3 = 0 then
    ⟨s1, true, 0, 0, 0⟩
  else if r &&& 3 = 1 then
    let d := (random s1).1
    let s2 := (random s1).2
    let v := (random s2).1
    let s3 := (random s2).2
    if d &&& 1 ≠ 0 then ⟨s3, false, 0xff, v, 0⟩ else ⟨s3, false, 0xff, 0, v⟩
  else if r &&& 3 = 2 then
    let d := (random s1).1
    let s2 := (random s1).2
    let v := (random s2).1
    let s3 := (random s2).2
    if d &&& 1 ≠ 0 then ⟨s3, false, v, 0xff, 0⟩ else ⟨s3, false, 0, 0xff, v⟩
  else
    let d := (random s1).1
    let s2 := (random s1).2
    let v := (random s2).1
    let s3 := (random s2).2
    if d &&& 1 ≠ 0 then ⟨s3, false, v, 0, 0xff⟩ else ⟨s3, false, 0, v, 0xff⟩

/-- `PRTIM0` bit position in the `PRR` power-reduction register. -/
def PRTIM0 : Nat := 2
/-- `PRTIM1` bit position in the `PRR` power-reduction register. -/
def PRTIM1 : Nat := 3

/-- Bitwise complement restricted to one byte: C `~m` evaluated on a
`uint8_t` mask. -/
def comp8 (m : Nat) : Nat := 255 ^^^ (m % 256)

/-- `animateOne` (lines 104-188) as its effect on the PRNG and on the `PRR`
power-reduction register: the idle branch returns at line 111 without ever
reaching the `PRR` writes; a non-idle branch clears the two timer bits at
entry (line 134, power on) and sets them again at exit (line 187, power
off). -/
def animateOne (s : RState) (prr : Nat) : Sel × Nat :=
  let sel := animateSelect s
  if sel.idle then
    (sel, prr)
  else
    let prrOn := prr &&& comp8 ((1 <<< PRTIM1) ||| (1 <<< PRTIM0))
    let prrOff := (prrOn ||| ((1 <<< PRTIM1) ||| (1 <<< PRTIM0))) % 256
    (sel, prrOff)

/-- PRNG state at the start of the `n`-th animation cycle (0-based) of the
actual run from the fixed seed, each cycle consuming bytes exactly as
`animateSelect` does. -/
def runCycles : Nat → RState
  | 0 => seed
  | n + 1 => (animateSelect (runCycles n)).rng

/-- Case analysis of the selection outcome: either the idle branch was taken
and all three amplitudes are zero, or one channel is pinned to 255, one of
the remaining two is zero, and the amplitudes are bytes. -/
theorem animateSelect_cases (s : RState) :
    ((animateSelect s).idle = true ∧ (animateSelect s).p1 = 0
      ∧ (animateSelect s).p2 = 0 ∧ (animateSelect s).p3 = 0)
    ∨ ((animateSelect s).idle = false
      ∧ (((animateSelect s).p1 = 255 ∧ ((animateSelect s).p2 = 0 ∨ (animateSelect s).p3 = 0))
        ∨ ((animateSelect s).p2 = 255 ∧ ((animateSelect s).p1 = 0 ∨ (animateSelect s).p3 = 0))
        ∨ ((animateSelect s).p3 = 255 ∧ ((animateSelect s).p1 = 0 ∨ (animateSelect s).p2 = 0)))
      ∧ (animateSelect s).p1 ≤ 255 ∧ (animateSelect s).p2 ≤ 255 ∧ (animateSelect s).p3 ≤ 255) := by
  have hv : ∀ t : RState, (random t).1 ≤ 255 := by
    intro t
    unfold random
    exact Nat.le_of_lt_succ (Nat.mod_lt _ (by norm_num))
  unfold animateSelect
  dsimp only
  split_ifs <;> simp_all

/-- C2 counterexample: on the 186th cycle (0-based index 185) of the actual
run from the fixed seed, the 2-bit draw picks outcome 3 and the secondary
byte drawn for `p2` is itself 255, so `p2 = p3 = 255`: the claim that
exactly one of the three amplitudes equals 255 fails on this selection. -/
theorem animateSelect_two_at_255 :
    (animateSelect (runCycles 185)).idle = false
    ∧ (animateSelect (runCycles 185)).p2 = 255
    ∧ (animateSelect (runCycles 185)).p3 = 255
    ∧ ¬(((animateSelect (runCycles 185)).p1 = 255
          ∧ (animateSelect (runCycles 185)).p2 ≠ 255 ∧ (animateSelect (runCycles 185)).p3 ≠ 255)
        ∨ ((animateSelect (runCycles 185)).p1 ≠ 255
          ∧ (animateSelect (runCycles 185)).p2 = 255 ∧ (animateSelect (runCycles 185)).p3 ≠ 255)
        ∨ ((animateSelect (runCycles 185)).p1 ≠ 255
          ∧ (animateSelect (runCycles 185)).p2 ≠ 255 ∧ (animateSelect (runCycles 185)).p3 = 255)) := by
  decide

/-- C2 (amended): for every idle selection all three amplitudes are 0; for
every non-idle selection the primary channel's amplitude equals 255 (but a
second one may equal 255 too, since the secondary byte is unconstrained),
at most one other is non-zero, and the remaining one is exactly 0. -/
theorem animateSelect_target_valid (s : RState) :
    ((animateSelect s).idle = true →
      (animateSelect s).p1 = 0 ∧ (animateSelect s).p2 = 0 ∧ (animateSelect s).p3 = 0)
    ∧ ((animateSelect s).idle = false →
      ((animateSelect s).p1 = 255 ∧ ((animateSelect s).p2 = 0 ∨ (animateSelect s).p3 = 0))
      ∨ ((animateSelect s).p2 = 255 ∧ ((animateSelect s).p1 = 0 ∨ (animateSelect s).p3 = 0))
      ∨ ((animateSelect s).p3 = 255 ∧ ((animateSelect s).p1 = 0 ∨ (animateSelect s).p2 = 0))) := by
  rcases animateSelect_cases s with ⟨h, h1, h2, h3⟩ | ⟨h, hd, _⟩
  · exact ⟨fun _ => ⟨h1, h2, h3⟩, fun hc => absurd hc (by simp [h])⟩
  · exact ⟨fun hc => absurd hc (by simp [h]), fun _ => hd⟩

/-- C9: what the non-idle branches actually guarantee: the primary channel
equals 255, at least one of the other two equals exactly 0, and every
amplitude is a byte; and, because the secondary byte is drawn with no
re-draw or exclusion, it can itself be 255 (cycle 185 of the real run from
the seed lights two channels at full) or 0 (cycle 8 lights only the
primary). -/
theorem animateSelect_secondary_unconstrained :
    (∀ s : RState, (animateSelect s).idle = false →
      (((animateSelect s).p1 = 255 ∧ ((animateSelect s).p2 = 0 ∨ (animateSelect s).p3 = 0))
        ∨ ((animateSelect s).p2 = 255 ∧ ((animateSelect s).p1 = 0 ∨ (animateSelect s).p3 = 0))
        ∨ ((animateSelect s).p3 = 255 ∧ ((animateSelect s).p1 = 0 ∨ (animateSelect s).p2 = 0)))
      ∧ (animateSelect s).p1 ≤ 255 ∧ (animateSelect s).p2 ≤ 255 ∧ (animateSelect s).p3 ≤ 255)
    ∧ ((animateSelect (runCycles 185)).idle = false
      ∧ (animateSelect (runCycles 185)).p2 = 255 ∧ (animateSelect (runCycles 185)).p3 = 255)
    ∧ ((animateSelect (runCycles 8)).idle = false ∧ (animateSelect (runCycles 8)).p1 = 255
      ∧ (animateSelect (runCycles 8)).p2 = 0 ∧ (animateSelect (runCycles 8)).p3 = 0) := by
  refine ⟨fun s hs => ?_, by decide, by decide⟩
  rcases animateSelect_cases s with ⟨h, _⟩ | ⟨_, hd, hb⟩
  · rw [h] at hs; cases hs
  · exact ⟨hd, hb⟩

/-- Setting a bit with an 8-bit `|=` store leaves that bit set, for any bit
position below 8. -/
theorem testBit_byte_or (x m i : Nat) (hi : i < 8) (hm : Nat.testBit m i = true) :
    Nat.testBit ((x ||| m) % 256) i = true := by
  rw [show (256:Nat) = 2^8 from rfl, Nat.testBit_mod_two_pow]
  simp [Nat.testBit_lor, hi, hm]

/-- Clearing a bit with `&=` of a mask whose bit is 0 leaves that bit 0. -/
theorem testBit_and_mask (x m i : Nat) (hm : Nat.testBit m i = false) :
    Nat.testBit (x &&& m) i = false := by
  rw [Nat.testBit_land, hm]
  simp

/-- C7: if both timer power-reduction bits of `PRR` are set (timers powered
off) before `animateOne`, they are set again after it, for every selection
outcome: a non-idle cycle clears them at entry and sets them back at exit,
and the idle branch returns without touching `PRR` at all. -/
theorem animateOne_prr_restored (s : RState) (prr : Nat)
    (h0 : Nat.testBit prr PRTIM0 = true) (h1 : Nat.testBit prr PRTIM1 = true) :
    Nat.testBit (animateOne s prr).2 PRTIM0 = true
    ∧ Nat.testBit (animateOne s prr).2 PRTIM1 = true := by
  unfold animateOne
  dsimp only
  split_ifs
  · exact ⟨h0, h1⟩
  · constructor <;> exact testBit_byte_or _ _ _ (by norm_num [PRTIM0, PRTIM1]) (by decide)

/-- Witness for C7 at the seed (a non-idle outcome) with all `PRR` bits set. -/
theorem animateOne_prr_restored_witness :
    Nat.testBit (animateOne seed 255).2 PRTIM0 = true
    ∧ Nat.testBit (animateOne seed 255).2 PRTIM1 = true :=
  animateOne_prr_restored seed 255 (by decide) (by decide)

/-- C10: each cycle consumes a fixed number of PRNG bytes determined only by
the first draw: one byte when the 2-bit outcome is 0, three bytes (selection,
secondary choice, secondary amplitude) otherwise; since `animateSelect` is a
pure function of the PRNG state, the whole animation sequence is a
deterministic function of the initial state. -/
theorem animateSelect_rng_advance (s : RState) :
    (animateSelect s).rng =
      (if (random s).1 &&& 3 = 0 then stepRng s else stepRng (stepRng (stepRng s))) := by
  unfold animateSelect stepRng
  dsimp only
  split_ifs <;> simp_all

/-- One up-ramp step of a channel accumulator: `s += p` on the `uint16_t`
accumulator (lines 160-162), i.e. addition mod 2^16. -/
def step16add (s A : Nat) : Nat := (s + A) % 65536

/-- One down-ramp step: `s -= p` on the `uint16_t` accumulator
(lines 170-172), i.e. subtraction mod 2^16. -/
def step16sub (s A : Nat) : Nat := (s + 65536 - A % 65536) % 65536

/-- Channel accumulator after `k` of the 256 up-ramp iterations, starting
from 0 (lines 154-167). -/
def accUp (A : Nat) : Nat → Nat
  | 0 => 0
  | k + 1 => step16add (accUp A k) A

/-- Channel accumulator after `j` of the 256 down-ramp iterations,
continuing from the value the up-ramp left (lines 169-177). -/
def accDown (A : Nat) : Nat → Nat
  | 0 => accUp A 256
  | j + 1 => step16sub (accDown A j) A

/-- Duty written after an up-ramp iteration: the accumulator's high byte
(`s >> 8`, lines 163-165). -/
def dutyUp (A k : Nat) : Nat := accUp A k >>> 8

/-- Duty written after a down-ramp iteration (lines 173-175). -/
def dutyDown (A j : Nat) : Nat := accDown A j >>> 8

/-- For a byte amplitude the 16-bit up-ramp accumulator never overflows:
after `k` of the 256 additions it holds exactly `k * A`. -/
theorem accUp_eq (A : Nat) (hA : A ≤ 255) : ∀ k, k ≤ 256 → accUp A k = k * A := by
  intro k
  induction k with
  | zero => intro _; simp [accUp]
  | succ k ih =>
    intro hk
    have hlt : (k + 1) * A < 65536 :=
      Nat.lt_of_le_of_lt (Nat.mul_le_mul hk hA) (by norm_num)
    have hmul : k * A + A = (k + 1) * A := by ring
    rw [accUp, step16add, ih (Nat.le_of_succ_le hk), hmul, Nat.mod_eq_of_lt hlt]

/-- The down-ramp accumulator after `j` subtractions holds `(256 - j) * A`:
no underflow occurs for a byte amplitude. -/
theorem accDown_eq (A : Nat) (hA : A ≤ 255) : ∀ j, j ≤ 256 → accDown A j = (256 - j) * A := by
  intro j
  induction j with
  | zero => intro _; rw [accDown, accUp_eq A hA 256 le_rfl]
  | succ j ih =>
    intro hj
    have hAm : A % 65536 = A := Nat.mod_eq_of_lt (by omega)
    have hsplit : (256 - j) * A = (255 - j) * A + A := by
      have h : 256 - j = (255 - j) + 1 := by omega
      rw [h]; ring
    have hsmall : (255 - j) * A < 65536 :=
      Nat.lt_of_le_of_lt (Nat.mul_le_mul (by omega : 255 - j ≤ 255) hA) (by norm_num)
    have hj2 : 256 - (j + 1) = 255 - j := by omega
    rw [accDown, step16sub, ih (Nat.le_of_succ_le hj), hAm, hsplit, hj2]
    generalize (255 - j) * A = P at hsmall ⊢
    omega

/-- C4: for every byte amplitude `A`, the duty sequence emitted by the 256
up-ramp steps is non-decreasing and its final value is exactly `A`, and the
duty sequence emitted by the 256 down-ramp steps is non-increasing and ends
exactly at 0. -/
theorem ramp_monotone_reaches (A : Nat) (hA : A ≤ 255) :
    (∀ k, k < 256 → dutyUp A k ≤ dutyUp A (k + 1))
    ∧ dutyUp A 256 = A
    ∧ (∀ j, j < 256 → dutyDown A (j + 1) ≤ dutyDown A j)
    ∧ dutyDown A 256 = 0 := by
  refine ⟨fun k hk => ?_, ?_, fun j hj => ?_, ?_⟩
  · unfold dutyUp
    rw [accUp_eq A hA k (by omega), accUp_eq A hA (k + 1) (by omega),
      Nat.shiftRight_eq_div_pow, Nat.shiftRight_eq_div_pow]
    exact Nat.div_le_div_right (Nat.mul_le_mul (by omega : k ≤ k + 1) le_rfl)
  · unfold dutyUp
    rw [accUp_eq A hA 256 le_rfl, Nat.shiftRight_eq_div_pow,
      show (2 : Nat) ^ 8 = 256 from rfl]
    exact Nat.mul_div_cancel_left A (by norm_num)
  · unfold dutyDown
    rw [accDown_eq A hA j (by omega), accDown_eq A hA (j + 1) (by omega),
      Nat.shiftRight_eq_div_pow, Nat.shiftRight_eq_div_pow]
    exact Nat.div_le_div_right (Nat.mul_le_mul (by omega : 256 - (j + 1) ≤ 256 - j) le_rfl)
  · unfold dutyDown
    rw [accDown_eq A hA 256 le_rfl]
    simp

/-- Witness for C4 at the concrete amplitude 200. -/
theorem ramp_monotone_reaches_witness :
    (∀ k, k < 256 → dutyUp 200 k ≤ dutyUp 200 (k + 1))
    ∧ dutyUp 200 256 = 200
    ∧ (∀ j, j < 256 → dutyDown 200 (j + 1) ≤ dutyDown 200 j)
    ∧ dutyDown 200 256 = 0 :=
  ramp_monotone_reaches 200 (by norm_num)

/-- The I/O registers written by `night()` and `wdSleep()`.  Each holds a
byte; every store reduces mod 256 where the C code can only store a byte.
`PINB` is a read-only input port and is therefore not a field: the value
read from it is supplied by the environment as an explicit parameter. -/
structure HW where
  portb : Nat
  ddrb : Nat
  gimsk : Nat
  gifr : Nat
  wdtcr : Nat
deriving DecidableEq

/-- `LED0_BIT` (line 31): the shared sense/cathode channel is PB2. -/
def LED0_BIT : Nat := 2
/-- `INT0` bit position in `GIMSK` on the ATtiny85. -/
def INT0 : Nat := 6
/-- `INTF0` bit position in `GIFR` on the ATtiny85. -/
def INTF0 : Nat := 6
/-- `WDIF` bit position in `WDTCR`. -/
def WDIF : Nat := 7
/-- `WDIE` bit position in `WDTCR`. -/
def WDIE : Nat := 6
/-- `WDP3` bit position in `WDTCR`. -/
def WDP3 : Nat := 5
/-- `WDCE` bit position in `WDTCR`. -/
def WDCE : Nat := 4

/-- `WDTO_15MS` timeout code from `avr/wdt.h`. -/
def WDTO_15MS : Nat := 0
/-- `WDTO_250MS` timeout code. -/
def WDTO_250MS : Nat := 4
/-- `WDTO_500MS` timeout code. -/
def WDTO_500MS : Nat := 5
/-- `WDTO_8S` timeout code. -/
def WDTO_8S : Nat := 9

/-- `wdSleepImpl` (lines 45-53): three successive stores to `WDTCR`
reprogram the watchdog, then the CPU sleeps until the watchdog interrupt
(`sei`, `sleep_cpu`, `cli` touch no I/O register).  No register other than
`WDTCR` is written. -/
def wdSleepImpl (wdtcr : Nat) (hw : HW) : HW :=
  let hw1 := { hw with wdtcr := (hw.wdtcr ||| (1 <<< WDCE)) % 256 }
  let hw2 := { hw1 with wdtcr := wdtcr % 256 }
  let hw3 := { hw2 with wdtcr := (hw2.wdtcr ||| (1 <<< WDIF)) % 256 }
  hw3

/-- `wdSleep` (lines 55-59): computes the `WDTCR` value enabling the WDT
interrupt with the requested timeout (bit 3 of the timeout code goes to
`WDP3`) and calls `wdSleepImpl`. -/
def wdSleep (wdto : Nat) (hw : HW) : HW :=
  wdSleepImpl ((1 <<< WDIF) ||| (1 <<< WDIE) ||| (wdto &&& 7) ||| ((wdto >>> 3) <<< WDP3)) hw

/-- `night()` (lines 61-76).  `pinbSample` is the byte the `PINB` read at
line 71 returns; ambient light determines it, so it is a parameter.  The
result pairs the returned boolean with the final register state. -/
def night (hw : HW) (pinbSample : Nat) : Bool × HW :=
  let hw1 := { hw with portb := (hw.portb ||| (1 <<< LED0_BIT)) % 256 }
  let hw2 := wdSleep WDTO_15MS hw1
  let hw3 := { hw2 with ddrb := hw2.ddrb &&& comp8 (1 <<< LED0_BIT) }
  let hw4 := { hw3 with portb := hw3.portb &&& comp8 (1 <<< LED0_BIT) }
  let hw5 := { hw4 with gimsk := (hw4.gimsk ||| (1 <<< INT0)) % 256 }
  let hw6 := { hw5 with gifr := (hw5.gifr ||| (1 <<< INTF0)) % 256 }
  let hw7 := wdSleep WDTO_250MS hw6
  let result := (pinbSample &&& (1 <<< LED0_BIT)) != 0
  let hw8 := { hw7 with gimsk := hw7.gimsk &&& comp8 (1 <<< INT0) }
  let hw9 := { hw8 with ddrb := (hw8.ddrb ||| (1 <<< LED0_BIT)) % 256 }
  (result, hw9)

/-- C5: `night()` returns true (NIGHT) exactly when the sense channel has
not discharged by the end of the fixed window, i.e. when the sampled logic
level of PB2 is still high; it returns false (DAY) exactly when the level
has dropped low.  No other part of the state influences the result. -/
theorem night_result_iff_high (hw : HW) (pinbSample : Nat) :
    (night hw pinbSample).1 = true ↔ Nat.testBit pinbSample LED0_BIT = true := by
  unfold night
  dsimp only
  rw [show (1 <<< LED0_BIT : Nat) = 2 ^ 2 from rfl, Nat.and_two_pow]
  cases h : Nat.testBit pinbSample 2 <;> simp [h, LED0_BIT]

/-- C6: after every call to `night()`, whatever the outcome and the prior
state, the sense channel is configured as output again (`DDRB` bit 2 set,
line 74) and the external-edge wake is disabled (`GIMSK` bit `INT0`
cleared, line 72). -/
theorem night_restores_output_and_int0 (hw : HW) (pinbSample : Nat) :
    Nat.testBit (night hw pinbSample).2.ddrb LED0_BIT = true
    ∧ Nat.testBit (night hw pinbSample).2.gimsk INT0 = false := by
  unfold night
  dsimp only
  constructor
  · exact testBit_byte_or _ _ _ (by norm_num [LED0_BIT]) (by decide)
  · exact testBit_and_mask _ _ _ (by decide)

/-- C8: `wdSleep` leaves the external-interrupt enable exactly as the
caller configured it: the whole `GIMSK` register, and in particular its
`INT0` enable bit, is identical before and after the call, for every prior
state and every timeout code. -/
theorem wdSleep_preserves_int0 (wdto : Nat) (hw : HW) :
    (wdSleep wdto hw).gimsk = hw.gimsk
    ∧ Nat.testBit (wdSleep wdto hw).gimsk INT0 = Nat.testBit hw.gimsk INT0 :=
  ⟨rfl, rfl⟩

/-- The body of `animateLoop` (lines 191-197) abstracted over the sensor:
`sensor k` is the boolean the `night()` poll following the `(k+1)`-th
animation cycle returns (`true` = NIGHT, `false` = DAY).  The fuel argument
is the remaining loop budget.  Returns how many `animateOne` cycles ran and
whether the `return` inside the loop (early exit on a `true` poll) was
taken; `false` means the `for` bound was exhausted and control fell through
to the code after the loop. -/
def animateLoopGo (sensor : Nat → Bool) : Nat → Nat → Nat × Bool
  | _, 0 => (0, false)
  | k, n + 1 =>
    if sensor k then (1, true)
    else
      let r := animateLoopGo sensor (k + 1) n
      (r.1 + 1, r.2)

/-- `animateLoop` (lines 191-197): the cycle budget is 240 (`i < 240`,
line 192, "2 min = 240 x 0.5s"). -/
def animateLoopRun (sensor : Nat → Bool) : Nat × Bool :=
  animateLoopGo sensor 0 240

/-- If the first `m` polls return false and the next returns true, the loop
runs exactly `m + 1` cycles and exits early. -/
theorem animateLoopGo_early (sensor : Nat → Bool) :
    ∀ m k n, (∀ j, j < m → sensor (k + j) = false) → sensor (k + m) = true → m < n →
      animateLoopGo sensor k n = (m + 1, true) := by
  intro m
  induction m with
  | zero =>
    intro k n _ htrue hn
    obtain ⟨n', rfl⟩ : ∃ n', n = n' + 1 := ⟨n - 1, by omega⟩
    rw [animateLoopGo]
    simp at htrue
    simp [htrue]
  | succ m ih =>
    intro k n hfalse htrue hn
    obtain ⟨n', rfl⟩ : ∃ n', n = n' + 1 := ⟨n - 1, by omega⟩
    have hk : sensor k = false := by simpa using hfalse 0 (by omega)
    have hrec : animateLoopGo sensor (k + 1) n' = (m + 1, true) := by
      refine ih (k + 1) n' (fun j hj => ?_) ?_ (by omega)
      · have := hfalse (j + 1) (by omega)
        simpa [Nat.add_assoc, Nat.add_comm 1 j] using this
      · have h1 : k + 1 + m = k + (m + 1) := by omega
        rw [h1]; exact htrue
    rw [animateLoopGo]
    simp [hk, hrec]

/-- If every poll within the budget returns false, the loop runs its full
budget and falls through without an early exit. -/
theorem animateLoopGo_full (sensor : Nat → Bool) :
    ∀ n k, (∀ j, j < n → sensor (k + j) = false) →
      animateLoopGo sensor k n = (n, false) := by
  intro n
  induction n with
  | zero => intro k _; rfl
  | succ n ih =>
    intro k hfalse
    have hk : sensor k = false := by simpa using hfalse 0 (by omega)
    have hrec : animateLoopGo sensor (k + 1) n = (n, false) := by
      refine ih (k + 1) (fun j hj => ?_)
      have := hfalse (j + 1) (by omega)
      simpa [Nat.add_assoc, Nat.add_comm 1 j] using this
    rw [animateLoopGo]
    simp [hk, hrec]

/-- C1 (amended): with the cycle budget 240, cycles run one at a time with
a `night()` poll after each; if the poll reports NIGHT (`true`) first on
the `(k+1)`-th poll, exactly `k + 1` cycles have run and the burst exits
early via the loop's `return`; if NIGHT is never reported within the
budget, exactly 240 cycles run and control falls through directly to the
wait loop that follows `animateLoop()` in `main` — there is no
intermediate idle state. -/
theorem animateLoop_budget (sensor : Nat → Bool) :
    (∀ k, k < 240 → (∀ j, j < k → sensor j = false) → sensor k = true →
      animateLoopRun sensor = (k + 1, true))
    ∧ ((∀ j, j < 240 → sensor j = false) → animateLoopRun sensor = (240, false)) := by
  constructor
  · intro k hk hfalse htrue
    exact animateLoopGo_early sensor k 0 240 (fun j hj => by simpa using hfalse j hj)
      (by simpa using htrue) hk
  · intro hfalse
    exact animateLoopGo_full sensor 240 0 (fun j hj => by simpa using hfalse j hj)

/-- Witness for C1 (amended): a sensor that reports NIGHT first on the 5th
poll makes the burst run exactly 5 cycles and exit early, matching the
spec's end-to-end scenario with the polarity corrected. -/
theorem animateLoop_budget_witness :
    animateLoopRun (fun j => j == 4) = (5, true) :=
  (animateLoop_budget (fun j => j == 4)).1 4 (by norm_num) (by decide) (by decide)

/-- C1 counterexample: if every poll reports DAY (`night()` = false) — in
particular the 1st poll does — the burst does not exit early after 1 cycle
as the claim predicts: it runs all 240 cycles and falls through with no
early exit. -/
theorem animateLoop_day_no_early_exit :
    animateLoopRun (fun _ => false) = (240, false) ∧ ((240 : Nat), false) ≠ ((1 : Nat), true) :=
  ⟨animateLoopGo_full (fun _ => false) 240 0 (fun _ _ => rfl), by decide⟩

end TinyRGB
